import Mathlib

/-!
Shallow embedding of the financial ratio engine of
`src/app/utils/financial.ts`: eleven compute functions (a guarded division,
signalling failure through `Except String`) and eleven judgment classifiers
(ordered threshold chains returning a record with a level tag and display
strings).  Numbers are modelled by `ℚ`; a thrown `Error` is `Except.error`
with the source's message string.
-/

/-- Level tags of `PSRJudgment` (`'undervalued' | 'fair' | 'high' | 'very-high'`). -/
inductive PSRLevel
  | undervalued
  | fair
  | high
  | veryHigh
deriving DecidableEq

/-- Level tags of `SafetyJudgment` (`'excellent' | 'good' | 'fair' | 'warning'`). -/
inductive SafetyLevel
  | excellent
  | good
  | fair
  | warning
deriving DecidableEq

/-- Level tags of `GrowthJudgment` (`'strong' | 'moderate' | 'stable' | 'declining'`). -/
inductive GrowthLevel
  | strong
  | moderate
  | stable
  | declining
deriving DecidableEq

/-- Level tags of `ProfitabilityJudgment` (`'excellent' | 'good' | 'fair' | 'poor'`). -/
inductive ProfitabilityLevel
  | excellent
  | good
  | fair
  | poor
deriving DecidableEq

/-- Level tags of `ValuationJudgment` (`'undervalued' | 'fair' | 'overvalued' | 'very-overvalued'`). -/
inductive ValuationLevel
  | undervalued
  | fair
  | overvalued
  | veryOvervalued
deriving DecidableEq

/-- The `PSRJudgment` interface. -/
structure PSRJudgment where
  level : PSRLevel
  color : String
  borderColor : String
  textColor : String
  darkTextColor : String
  title : String
  description : String

/-- The `SafetyJudgment` interface. -/
structure SafetyJudgment where
  level : SafetyLevel
  borderColor : String
  textColor : String
  darkTextColor : String
  title : String
  description : String

/-- The `GrowthJudgment` interface. -/
structure GrowthJudgment where
  level : GrowthLevel
  borderColor : String
  textColor : String
  darkTextColor : String
  title : String
  description : String

/-- The `ProfitabilityJudgment` interface. -/
structure ProfitabilityJudgment where
  level : ProfitabilityLevel
  borderColor : String
  textColor : String
  darkTextColor : String
  title : String
  description : String

/-- The `ValuationJudgment` interface. -/
structure ValuationJudgment where
  level : ValuationLevel
  borderColor : String
  textColor : String
  darkTextColor : String
  title : String
  description : String

/-- `calculatePSR(marketCap, revenue)`. -/
def calculatePSR (marketCap revenue : ℚ) : Except String ℚ :=
  if revenue ≤ 0 then
    .error "Revenue must be greater than 0"
  else
    .ok (marketCap / revenue)

/-- `calculateCurrentRatio(currentAssets, currentLiabilities)`. -/
def calculateCurrentRatio (currentAssets currentLiabilities : ℚ) : Except String ℚ :=
  if currentLiabilities ≤ 0 then
    .error "Current liabilities must be greater than 0"
  else
    .ok (currentAssets / currentLiabilities * 100)

/-- `calculateEquityRatio(equity, totalAssets)`. -/
def calculateEquityRatio (equity totalAssets : ℚ) : Except String ℚ :=
  if totalAssets ≤ 0 then
    .error "Total assets must be greater than 0"
  else
    .ok (equity / totalAssets * 100)

/-- `calculateCapExRatio(capex, depreciation)`. -/
def calculateCapExRatio (capex depreciation : ℚ) : Except String ℚ :=
  if depreciation ≤ 0 then
    .error "Depreciation must be greater than 0"
  else
    .ok (capex / depreciation)

/-- `calculateRevenueGrowth(currentRevenue, pastRevenue)`. -/
def calculateRevenueGrowth (currentRevenue pastRevenue : ℚ) : Except String ℚ :=
  if pastRevenue ≤ 0 then
    .error "Past revenue must be greater than 0"
  else
    .ok ((currentRevenue - pastRevenue) / pastRevenue * 100)

/-- `calculateROE(netIncome, equity)`. -/
def calculateROE (netIncome equity : ℚ) : Except String ℚ :=
  if equity ≤ 0 then
    .error "Equity must be greater than 0"
  else
    .ok (netIncome / equity * 100)

/-- `calculateROA(netIncome, totalAssets)`. -/
def calculateROA (netIncome totalAssets : ℚ) : Except String ℚ :=
  if totalAssets ≤ 0 then
    .error "Total assets must be greater than 0"
  else
    .ok (netIncome / totalAssets * 100)

/-- `calculateOperatingMargin(operatingIncome, revenue)`. -/
def calculateOperatingMargin (operatingIncome revenue : ℚ) : Except String ℚ :=
  if revenue ≤ 0 then
    .error "Revenue must be greater than 0"
  else
    .ok (operatingIncome / revenue * 100)

/-- `calculatePER(marketCap, netIncome)`. -/
def calculatePER (marketCap netIncome : ℚ) : Except String ℚ :=
  if netIncome ≤ 0 then
    .error "Net income must be greater than 0"
  else
    .ok (marketCap / netIncome)

/-- `calculatePBR(marketCap, equity)`. -/
def calculatePBR (marketCap equity : ℚ) : Except String ℚ :=
  if equity ≤ 0 then
    .error "Equity must be greater than 0"
  else
    .ok (marketCap / equity)

/-- `calculateDividendYield(annualDividend, stockPrice)`. -/
def calculateDividendYield (annualDividend stockPrice : ℚ) : Except String ℚ :=
  if stockPrice ≤ 0 then
    .error "Stock price must be greater than 0"
  else
    .ok (annualDividend / stockPrice * 100)

/-- `getPSRJudgment(psr)`. -/
def getPSRJudgment (psr : ℚ) : PSRJudgment :=
  if psr < 1 then
    { level := .undervalued
      color := "green"
      borderColor := "border-green-500"
      textColor := "text-green-700"
      darkTextColor := "dark:text-green-400"
      title := "割安"
      description := "時価総額が売上高を下回っており、市場の期待値は控えめ" }
  else if psr < 2 then
    { level := .fair
      color := "yellow"
      borderColor := "border-yellow-500"
      textColor := "text-yellow-700"
      darkTextColor := "dark:text-yellow-400"
      title := "適正〜やや高め"
      description := "時価総額は売上高と同程度、標準的な評価" }
  else if psr < 5 then
    { level := .high
      color := "orange"
      borderColor := "border-orange-500"
      textColor := "text-orange-700"
      darkTextColor := "dark:text-orange-400"
      title := "高成長期待"
      description := "市場は将来の成長を見込んでいる" }
  else
    { level := .veryHigh
      color := "red"
      borderColor := "border-red-500"
      textColor := "text-red-700"
      darkTextColor := "dark:text-red-400"
      title := "非常に高い期待値"
      description := "高成長企業またはバブル的評価の可能性" }

/-- `getCurrentRatioJudgment(ratio)`. -/
def getCurrentRatioJudgment (ratio : ℚ) : SafetyJudgment :=
  if ratio ≥ 200 then
    { level := .excellent
      borderColor := "border-green-500"
      textColor := "text-green-700"
      darkTextColor := "dark:text-green-400"
      title := "優良"
      description := "短期的な財務安定性が非常に高い" }
  else if ratio ≥ 150 then
    { level := .good
      borderColor := "border-blue-500"
      textColor := "text-blue-700"
      darkTextColor := "dark:text-blue-400"
      title := "良好"
      description := "事業運営に十分な流動性がある" }
  else if ratio ≥ 100 then
    { level := .fair
      borderColor := "border-yellow-500"
      textColor := "text-yellow-700"
      darkTextColor := "dark:text-yellow-400"
      title := "普通"
      description := "最低限の流動性バッファーあり" }
  else
    { level := .warning
      borderColor := "border-red-500"
      textColor := "text-red-700"
      darkTextColor := "dark:text-red-400"
      title := "要注意"
      description := "流動負債が流動資産を上回っており、流動性に懸念" }

/-- `getEquityRatioJudgment(ratio)`. -/
def getEquityRatioJudgment (ratio : ℚ) : SafetyJudgment :=
  if ratio ≥ 50 then
    { level := .excellent
      borderColor := "border-green-500"
      textColor := "text-green-700"
      darkTextColor := "dark:text-green-400"
      title := "優良"
      description := "財務的自立性が非常に高い" }
  else if ratio ≥ 40 then
    { level := .good
      borderColor := "border-blue-500"
      textColor := "text-blue-700"
      darkTextColor := "dark:text-blue-400"
      title := "良好"
      description := "強固な財務基盤を持つ" }
  else if ratio ≥ 20 then
    { level := .fair
      borderColor := "border-yellow-500"
      textColor := "text-yellow-700"
      darkTextColor := "dark:text-yellow-400"
      title := "普通"
      description := "中程度の財務安定性" }
  else
    { level := .warning
      borderColor := "border-red-500"
      textColor := "text-red-700"
      darkTextColor := "dark:text-red-400"
      title := "要注意"
      description := "借入金への依存度が高い" }

/-- `getCapExRatioJudgment(ratio)`. -/
def getCapExRatioJudgment (ratio : ℚ) : GrowthJudgment :=
  if ratio ≥ 3/2 then
    { level := .strong
      borderColor := "border-green-500"
      textColor := "text-green-700"
      darkTextColor := "dark:text-green-400"
      title := "積極投資"
      description := "成長と資産更新に積極的に投資している" }
  else if ratio ≥ 1 then
    { level := .moderate
      borderColor := "border-blue-500"
      textColor := "text-blue-700"
      darkTextColor := "dark:text-blue-400"
      title := "適正投資"
      description := "資産を現状レベルで維持している" }
  else if ratio ≥ 7/10 then
    { level := .stable
      borderColor := "border-yellow-500"
      textColor := "text-yellow-700"
      darkTextColor := "dark:text-yellow-400"
      title := "保守的"
      description := "新規投資が限定的、資産ベースが縮小傾向の可能性" }
  else
    { level := .declining
      borderColor := "border-red-500"
      textColor := "text-red-700"
      darkTextColor := "dark:text-red-400"
      title := "投資不足"
      description := "資産ベースを維持するには投資が不十分" }

/-- `getRevenueGrowthJudgment(growthRate)`. -/
def getRevenueGrowthJudgment (growthRate : ℚ) : GrowthJudgment :=
  if growthRate ≥ 50 then
    { level := .strong
      borderColor := "border-green-500"
      textColor := "text-green-700"
      darkTextColor := "dark:text-green-400"
      title := "高成長"
      description := "4年間で顕著な売上高拡大" }
  else if growthRate ≥ 20 then
    { level := .moderate
      borderColor := "border-blue-500"
      textColor := "text-blue-700"
      darkTextColor := "dark:text-blue-400"
      title := "堅実な成長"
      description := "健全な売上高成長軌道" }
  else if growthRate ≥ 0 then
    { level := .stable
      borderColor := "border-yellow-500"
      textColor := "text-yellow-700"
      darkTextColor := "dark:text-yellow-400"
      title := "安定"
      description := "売上高を維持または微増" }
  else
    { level := .declining
      borderColor := "border-red-500"
      textColor := "text-red-700"
      darkTextColor := "dark:text-red-400"
      title := "減少傾向"
      description := "期間内に売上高が減少" }

/-- `getROEJudgment(roe)`. -/
def getROEJudgment (roe : ℚ) : ProfitabilityJudgment :=
  if roe ≥ 15 then
    { level := .excellent
      borderColor := "border-green-500"
      textColor := "text-green-700"
      darkTextColor := "dark:text-green-400"
      title := "優良"
      description := "株主資本を非常に効率的に活用" }
  else if roe ≥ 10 then
    { level := .good
      borderColor := "border-blue-500"
      textColor := "text-blue-700"
      darkTextColor := "dark:text-blue-400"
      title := "良好"
      description := "株主資本を効率的に活用" }
  else if roe ≥ 5 then
    { level := .fair
      borderColor := "border-yellow-500"
      textColor := "text-yellow-700"
      darkTextColor := "dark:text-yellow-400"
      title := "普通"
      description := "改善の余地あり" }
  else
    { level := .poor
      borderColor := "border-red-500"
      textColor := "text-red-700"
      darkTextColor := "dark:text-red-400"
      title := "要改善"
      description := "資本効率が低い、または赤字" }

/-- `getROAJudgment(roa)`. -/
def getROAJudgment (roa : ℚ) : ProfitabilityJudgment :=
  if roa ≥ 10 then
    { level := .excellent
      borderColor := "border-green-500"
      textColor := "text-green-700"
      darkTextColor := "dark:text-green-400"
      title := "優良"
      description := "総資産を非常に効率的に活用" }
  else if roa ≥ 5 then
    { level := .good
      borderColor := "border-blue-500"
      textColor := "text-blue-700"
      darkTextColor := "dark:text-blue-400"
      title := "良好"
      description := "総資産を効率的に活用" }
  else if roa ≥ 2 then
    { level := .fair
      borderColor := "border-yellow-500"
      textColor := "text-yellow-700"
      darkTextColor := "dark:text-yellow-400"
      title := "普通"
      description := "改善の余地あり" }
  else
    { level := .poor
      borderColor := "border-red-500"
      textColor := "text-red-700"
      darkTextColor := "dark:text-red-400"
      title := "要改善"
      description := "資産効率が低い、または赤字" }

/-- `getOperatingMarginJudgment(margin)`. -/
def getOperatingMarginJudgment (margin : ℚ) : ProfitabilityJudgment :=
  if margin ≥ 20 then
    { level := .excellent
      borderColor := "border-green-500"
      textColor := "text-green-700"
      darkTextColor := "dark:text-green-400"
      title := "優良"
      description := "非常に高い収益性" }
  else if margin ≥ 10 then
    { level := .good
      borderColor := "border-blue-500"
      textColor := "text-blue-700"
      darkTextColor := "dark:text-blue-400"
      title := "良好"
      description := "健全な収益性" }
  else if margin ≥ 5 then
    { level := .fair
      borderColor := "border-yellow-500"
      textColor := "text-yellow-700"
      darkTextColor := "dark:text-yellow-400"
      title := "普通"
      description := "改善の余地あり" }
  else
    { level := .poor
      borderColor := "border-red-500"
      textColor := "text-red-700"
      darkTextColor := "dark:text-red-400"
      title := "要改善"
      description := "収益性が低い、または赤字" }

/-- `getPERJudgment(per)`. -/
def getPERJudgment (per : ℚ) : ValuationJudgment :=
  if per < 10 then
    { level := .undervalued
      borderColor := "border-green-500"
      textColor := "text-green-700"
      darkTextColor := "dark:text-green-400"
      title := "割安"
      description := "利益に対して株価が低い" }
  else if per < 20 then
    { level := .fair
      borderColor := "border-blue-500"
      textColor := "text-blue-700"
      darkTextColor := "dark:text-blue-400"
      title := "適正"
      description := "標準的な株価水準" }
  else if per < 30 then
    { level := .overvalued
      borderColor := "border-yellow-500"
      textColor := "text-yellow-700"
      darkTextColor := "dark:text-yellow-400"
      title := "やや割高"
      description := "成長期待が織り込まれている" }
  else
    { level := .veryOvervalued
      borderColor := "border-red-500"
      textColor := "text-red-700"
      darkTextColor := "dark:text-red-400"
      title := "割高"
      description := "高い成長期待、またはバブル的" }

/-- `getPBRJudgment(pbr)`. -/
def getPBRJudgment (pbr : ℚ) : ValuationJudgment :=
  if pbr < 1 then
    { level := .undervalued
      borderColor := "border-green-500"
      textColor := "text-green-700"
      darkTextColor := "dark:text-green-400"
      title := "割安"
      description := "解散価値を下回る株価" }
  else if pbr < 2 then
    { level := .fair
      borderColor := "border-blue-500"
      textColor := "text-blue-700"
      darkTextColor := "dark:text-blue-400"
      title := "適正"
      description := "標準的な株価水準" }
  else if pbr < 3 then
    { level := .overvalued
      borderColor := "border-yellow-500"
      textColor := "text-yellow-700"
      darkTextColor := "dark:text-yellow-400"
      title := "やや割高"
      description := "成長期待が織り込まれている" }
  else
    { level := .veryOvervalued
      borderColor := "border-red-500"
      textColor := "text-red-700"
      darkTextColor := "dark:text-red-400"
      title := "割高"
      description := "高い成長期待、またはバブル的" }

/-- `getDividendYieldJudgment(yieldPercent)`. -/
def getDividendYieldJudgment (yieldPercent : ℚ) : ValuationJudgment :=
  if yieldPercent ≥ 4 then
    { level := .undervalued
      borderColor := "border-green-500"
      textColor := "text-green-700"
      darkTextColor := "dark:text-green-400"
      title := "高配当"
      description := "インカムゲイン重視の投資家向け" }
  else if yieldPercent ≥ 2 then
    { level := .fair
      borderColor := "border-blue-500"
      textColor := "text-blue-700"
      darkTextColor := "dark:text-blue-400"
      title := "標準的"
      description := "平均的な配当水準" }
  else if yieldPercent ≥ 1 then
    { level := .overvalued
      borderColor := "border-yellow-500"
      textColor := "text-yellow-700"
      darkTextColor := "dark:text-yellow-400"
      title := "低配当"
      description := "成長への再投資重視" }
  else
    { level := .veryOvervalued
      borderColor := "border-red-500"
      textColor := "text-red-700"
      darkTextColor := "dark:text-red-400"
      title := "無配当的"
      description := "配当をほぼ出していない" }

/-- Band `i` of a descending `<`-style threshold chain with cutoffs `a < b < c`:
band 0 is `x < a`, band 1 is `a ≤ x < b`, band 2 is `b ≤ x < c`, band 3 is `c ≤ x`. -/
def chainLT (a b c : ℚ) (i : Fin 4) (x : ℚ) : Prop :=
  if i.val = 0 then x < a
  else if i.val = 1 then a ≤ x ∧ x < b
  else if i.val = 2 then b ≤ x ∧ x < c
  else c ≤ x

/-- Band `i` of a descending `≥`-style threshold chain with cutoffs `a > b > c`:
band 0 is `x ≥ a`, band 1 is `b ≤ x < a`, band 2 is `c ≤ x < b`, band 3 is `x < c`. -/
def chainGE (a b c : ℚ) (i : Fin 4) (x : ℚ) : Prop :=
  if i.val = 0 then a ≤ x
  else if i.val = 1 then b ≤ x ∧ x < a
  else if i.val = 2 then c ≤ x ∧ x < b
  else x < c

/-- The `PSRJudgment` levels in the order the source tries their bands. -/
def psrLevels (i : Fin 4) : PSRLevel :=
  if i.val = 0 then .undervalued else if i.val = 1 then .fair
  else if i.val = 2 then .high else .veryHigh

/-- The `SafetyJudgment` levels in the order the source tries their bands. -/
def safetyLevels (i : Fin 4) : SafetyLevel :=
  if i.val = 0 then .excellent else if i.val = 1 then .good
  else if i.val = 2 then .fair else .warning

/-- The `GrowthJudgment` levels in the order the source tries their bands. -/
def growthLevels (i : Fin 4) : GrowthLevel :=
  if i.val = 0 then .strong else if i.val = 1 then .moderate
  else if i.val = 2 then .stable else .declining

/-- The `ProfitabilityJudgment` levels in the order the source tries their bands. -/
def profitabilityLevels (i : Fin 4) : ProfitabilityLevel :=
  if i.val = 0 then .excellent else if i.val = 1 then .good
  else if i.val = 2 then .fair else .poor

/-- The `ValuationJudgment` levels in the order the source tries their bands. -/
def valuationLevels (i : Fin 4) : ValuationLevel :=
  if i.val = 0 then .undervalued else if i.val = 1 then .fair
  else if i.val = 2 then .overvalued else .veryOvervalued

/-- Rank of a `PSRLevel`, most favorable first. -/
def PSRLevel.rank : PSRLevel → ℕ
  | .undervalued => 0
  | .fair => 1
  | .high => 2
  | .veryHigh => 3

/-- Rank of a `SafetyLevel`, most favorable first. -/
def SafetyLevel.rank : SafetyLevel → ℕ
  | .excellent => 0
  | .good => 1
  | .fair => 2
  | .warning => 3

/-- Rank of a `GrowthLevel`, most favorable first. -/
def GrowthLevel.rank : GrowthLevel → ℕ
  | .strong => 0
  | .moderate => 1
  | .stable => 2
  | .declining => 3

/-- Rank of a `ProfitabilityLevel`, most favorable first. -/
def ProfitabilityLevel.rank : ProfitabilityLevel → ℕ
  | .excellent => 0
  | .good => 1
  | .fair => 2
  | .poor => 3

/-- Rank of a `ValuationLevel`, most favorable first. -/
def ValuationLevel.rank : ValuationLevel → ℕ
  | .undervalued => 0
  | .fair => 1
  | .overvalued => 2
  | .veryOvervalued => 3

theorem getPSRJudgment_level (x : ℚ) :
    (getPSRJudgment x).level =
      if x < 1 then PSRLevel.undervalued else if x < 2 then PSRLevel.fair
      else if x < 5 then PSRLevel.high else PSRLevel.veryHigh := by
  simp only [getPSRJudgment]
  split_ifs <;> rfl

theorem getCurrentRatioJudgment_level (x : ℚ) :
    (getCurrentRatioJudgment x).level =
      if 200 ≤ x then SafetyLevel.excellent else if 150 ≤ x then SafetyLevel.good
      else if 100 ≤ x then SafetyLevel.fair else SafetyLevel.warning := by
  simp only [getCurrentRatioJudgment, ge_iff_le]
  split_ifs <;> rfl

theorem getEquityRatioJudgment_level (x : ℚ) :
    (getEquityRatioJudgment x).level =
      if 50 ≤ x then SafetyLevel.excellent else if 40 ≤ x then SafetyLevel.good
      else if 20 ≤ x then SafetyLevel.fair else SafetyLevel.warning := by
  simp only [getEquityRatioJudgment, ge_iff_le]
  split_ifs <;> rfl

theorem getCapExRatioJudgment_level (x : ℚ) :
    (getCapExRatioJudgment x).level =
      if 3/2 ≤ x then GrowthLevel.strong else if 1 ≤ x then GrowthLevel.moderate
      else if 7/10 ≤ x then GrowthLevel.stable else GrowthLevel.declining := by
  simp only [getCapExRatioJudgment, ge_iff_le]
  split_ifs <;> rfl

theorem getRevenueGrowthJudgment_level (x : ℚ) :
    (getRevenueGrowthJudgment x).level =
      if 50 ≤ x then GrowthLevel.strong else if 20 ≤ x then GrowthLevel.moderate
      else if 0 ≤ x then GrowthLevel.stable else GrowthLevel.declining := by
  simp only [getRevenueGrowthJudgment, ge_iff_le]
  split_ifs <;> rfl

theorem getROEJudgment_level (x : ℚ) :
    (getROEJudgment x).level =
      if 15 ≤ x then ProfitabilityLevel.excellent else if 10 ≤ x then ProfitabilityLevel.good
      else if 5 ≤ x then ProfitabilityLevel.fair else ProfitabilityLevel.poor := by
  simp only [getROEJudgment, ge_iff_le]
  split_ifs <;> rfl

theorem getROAJudgment_level (x : ℚ) :
    (getROAJudgment x).level =
      if 10 ≤ x then ProfitabilityLevel.excellent else if 5 ≤ x then ProfitabilityLevel.good
      else if 2 ≤ x then ProfitabilityLevel.fair else ProfitabilityLevel.poor := by
  simp only [getROAJudgment, ge_iff_le]
  split_ifs <;> rfl

theorem getOperatingMarginJudgment_level (x : ℚ) :
    (getOperatingMarginJudgment x).level =
      if 20 ≤ x then ProfitabilityLevel.excellent else if 10 ≤ x then ProfitabilityLevel.good
      else if 5 ≤ x then ProfitabilityLevel.fair else ProfitabilityLevel.poor := by
  simp only [getOperatingMarginJudgment, ge_iff_le]
  split_ifs <;> rfl

theorem getPERJudgment_level (x : ℚ) :
    (getPERJudgment x).level =
      if x < 10 then ValuationLevel.undervalued else if x < 20 then ValuationLevel.fair
      else if x < 30 then ValuationLevel.overvalued else ValuationLevel.veryOvervalued := by
  simp only [getPERJudgment]
  split_ifs <;> rfl

theorem getPBRJudgment_level (x : ℚ) :
    (getPBRJudgment x).level =
      if x < 1 then ValuationLevel.undervalued else if x < 2 then ValuationLevel.fair
      else if x < 3 then ValuationLevel.overvalued else ValuationLevel.veryOvervalued := by
  simp only [getPBRJudgment]
  split_ifs <;> rfl

theorem getDividendYieldJudgment_level (x : ℚ) :
    (getDividendYieldJudgment x).level =
      if 4 ≤ x then ValuationLevel.undervalued else if 2 ≤ x then ValuationLevel.fair
      else if 1 ≤ x then ValuationLevel.overvalued else ValuationLevel.veryOvervalued := by
  simp only [getDividendYieldJudgment, ge_iff_le]
  split_ifs <;> rfl
theorem chainLT_existsUnique {α : Type} (a b c : ℚ) (hab : a ≤ b) (hbc : b ≤ c)
    (l : Fin 4 → α) (f : ℚ → α)
    (hf : ∀ x, f x = if x < a then l 0 else if x < b then l 1 else if x < c then l 2 else l 3)
    (x : ℚ) : ∃! i : Fin 4, chainLT a b c i x ∧ f x = l i := by
  have huniq : ∀ i j : Fin 4, chainLT a b c i x → chainLT a b c j x → i = j := by
    intro i j hi hj
    fin_cases i <;> fin_cases j <;>
      simp only [chainLT, Fin.isValue, Fin.val_zero, Fin.val_one, Fin.val_two, Fin.mk_one,
        show ((3 : Fin 4) : ℕ) = 3 from rfl, show ((2 : Fin 4) : ℕ) = 2 from rfl] at hi hj <;>
      norm_num at hi hj ⊢ <;> linarith [hi, hj]
  rcases lt_or_le x a with h1 | h1
  · refine ⟨0, ⟨by simp [chainLT, h1], by rw [hf, if_pos h1]⟩, fun j hj => huniq j 0 hj.1 (by simp [chainLT, h1])⟩
  · rcases lt_or_le x b with h2 | h2
    · refine ⟨1, ⟨by simp [chainLT]; exact ⟨h1, h2⟩, by rw [hf, if_neg (not_lt.2 h1), if_pos h2]⟩,
        fun j hj => huniq j 1 hj.1 (by simp [chainLT]; exact ⟨h1, h2⟩)⟩
    · rcases lt_or_le x c with h3 | h3
      · refine ⟨2, ⟨by simp [chainLT]; exact ⟨h2, h3⟩,
          by rw [hf, if_neg (not_lt.2 h1), if_neg (not_lt.2 h2), if_pos h3]⟩,
          fun j hj => huniq j 2 hj.1 (by simp [chainLT]; exact ⟨h2, h3⟩)⟩
      · refine ⟨3, ⟨by simp [chainLT]; exact h3,
          by rw [hf, if_neg (not_lt.2 h1), if_neg (not_lt.2 h2), if_neg (not_lt.2 h3)]⟩,
          fun j hj => huniq j 3 hj.1 (by simp [chainLT]; exact h3)⟩

theorem chainGE_existsUnique {α : Type} (a b c : ℚ) (hba : b ≤ a) (hcb : c ≤ b)
    (l : Fin 4 → α) (f : ℚ → α)
    (hf : ∀ x, f x = if a ≤ x then l 0 else if b ≤ x then l 1 else if c ≤ x then l 2 else l 3)
    (x : ℚ) : ∃! i : Fin 4, chainGE a b c i x ∧ f x = l i := by
  have huniq : ∀ i j : Fin 4, chainGE a b c i x → chainGE a b c j x → i = j := by
    intro i j hi hj
    fin_cases i <;> fin_cases j <;>
      simp only [chainGE, Fin.isValue, Fin.val_zero, Fin.val_one, Fin.val_two, Fin.mk_one,
        show ((3 : Fin 4) : ℕ) = 3 from rfl, show ((2 : Fin 4) : ℕ) = 2 from rfl] at hi hj <;>
      norm_num at hi hj ⊢ <;> linarith [hi, hj]
  rcases le_or_lt a x with h1 | h1
  · refine ⟨0, ⟨by simp [chainGE, h1], by rw [hf, if_pos h1]⟩, fun j hj => huniq j 0 hj.1 (by simp [chainGE, h1])⟩
  · rcases le_or_lt b x with h2 | h2
    · refine ⟨1, ⟨by simp [chainGE]; exact ⟨h2, h1⟩, by rw [hf, if_neg (not_le.2 h1), if_pos h2]⟩,
        fun j hj => huniq j 1 hj.1 (by simp [chainGE]; exact ⟨h2, h1⟩)⟩
    · rcases le_or_lt c x with h3 | h3
      · refine ⟨2, ⟨by simp [chainGE]; exact ⟨h3, h2⟩,
          by rw [hf, if_neg (not_le.2 h1), if_neg (not_le.2 h2), if_pos h3]⟩,
          fun j hj => huniq j 2 hj.1 (by simp [chainGE]; exact ⟨h3, h2⟩)⟩
      · refine ⟨3, ⟨by simp [chainGE]; exact h3,
          by rw [hf, if_neg (not_le.2 h1), if_neg (not_le.2 h2), if_neg (not_le.2 h3)]⟩,
          fun j hj => huniq j 3 hj.1 (by simp [chainGE]; exact h3)⟩

theorem chainLT_rank_mono {α : Type} (a b c : ℚ) (l : Fin 4 → α) (r : α → ℕ) (f : ℚ → α)
    (hf : ∀ x, f x = if x < a then l 0 else if x < b then l 1 else if x < c then l 2 else l 3)
    (hr01 : r (l 0) ≤ r (l 1)) (hr12 : r (l 1) ≤ r (l 2)) (hr23 : r (l 2) ≤ r (l 3))
    (x y : ℚ) (hxy : x ≤ y) : r (f x) ≤ r (f y) := by
  rw [hf x, hf y]
  split_ifs <;> linarith

theorem chainGE_rank_mono {α : Type} (a b c : ℚ) (l : Fin 4 → α) (r : α → ℕ) (f : ℚ → α)
    (hf : ∀ x, f x = if a ≤ x then l 0 else if b ≤ x then l 1 else if c ≤ x then l 2 else l 3)
    (hr01 : r (l 0) ≤ r (l 1)) (hr12 : r (l 1) ≤ r (l 2)) (hr23 : r (l 2) ≤ r (l 3))
    (x y : ℚ) (hxy : x ≤ y) : r (f y) ≤ r (f x) := by
  rw [hf x, hf y]
  split_ifs <;> linarith

theorem guarded_spec (s : String) (v b : ℚ) :
    ((∃ e, (if b ≤ 0 then (Except.error s : Except String ℚ) else Except.ok v) = Except.error e) ↔ b ≤ 0) ∧
    ((∃ w, (if b ≤ 0 then (Except.error s : Except String ℚ) else Except.ok v) = Except.ok w) ↔ 0 < b) := by
  split_ifs with h
  · constructor
    · simp [h]
    · simp [h, not_lt.2 h]
  · constructor
    · simp [h]
    · simp [h, not_le.1 h]

/-- C1: each of the eleven compute functions signals an invalid-precondition failure
(an `Except.error`) exactly when its required denominator argument (for
`calculateRevenueGrowth`, the baseline `pastRevenue`) is zero or negative, and for a
strictly positive denominator it returns normally with some `Except.ok` value (never a
sentinel in the error case). -/
theorem compute_failure_iff_nonpositive_denominator (a b : ℚ) :
    (((∃ e, calculatePSR a b = Except.error e) ↔ b ≤ 0) ∧
      ((∃ v, calculatePSR a b = Except.ok v) ↔ 0 < b)) ∧
    (((∃ e, calculateCurrentRatio a b = Except.error e) ↔ b ≤ 0) ∧
      ((∃ v, calculateCurrentRatio a b = Except.ok v) ↔ 0 < b)) ∧
    (((∃ e, calculateEquityRatio a b = Except.error e) ↔ b ≤ 0) ∧
      ((∃ v, calculateEquityRatio a b = Except.ok v) ↔ 0 < b)) ∧
    (((∃ e, calculateCapExRatio a b = Except.error e) ↔ b ≤ 0) ∧
      ((∃ v, calculateCapExRatio a b = Except.ok v) ↔ 0 < b)) ∧
    (((∃ e, calculateRevenueGrowth a b = Except.error e) ↔ b ≤ 0) ∧
      ((∃ v, calculateRevenueGrowth a b = Except.ok v) ↔ 0 < b)) ∧
    (((∃ e, calculateROE a b = Except.error e) ↔ b ≤ 0) ∧
      ((∃ v, calculateROE a b = Except.ok v) ↔ 0 < b)) ∧
    (((∃ e, calculateROA a b = Except.error e) ↔ b ≤ 0) ∧
      ((∃ v, calculateROA a b = Except.ok v) ↔ 0 < b)) ∧
    (((∃ e, calculateOperatingMargin a b = Except.error e) ↔ b ≤ 0) ∧
      ((∃ v, calculateOperatingMargin a b = Except.ok v) ↔ 0 < b)) ∧
    (((∃ e, calculatePER a b = Except.error e) ↔ b ≤ 0) ∧
      ((∃ v, calculatePER a b = Except.ok v) ↔ 0 < b)) ∧
    (((∃ e, calculatePBR a b = Except.error e) ↔ b ≤ 0) ∧
      ((∃ v, calculatePBR a b = Except.ok v) ↔ 0 < b)) ∧
    (((∃ e, calculateDividendYield a b = Except.error e) ↔ b ≤ 0) ∧
      ((∃ v, calculateDividendYield a b = Except.ok v) ↔ 0 < b)) :=
  ⟨guarded_spec _ _ _, guarded_spec _ _ _, guarded_spec _ _ _, guarded_spec _ _ _,
   guarded_spec _ _ _, guarded_spec _ _ _, guarded_spec _ _ _, guarded_spec _ _ _,
   guarded_spec _ _ _, guarded_spec _ _ _, guarded_spec _ _ _⟩

/-- C2: for a strictly positive denominator, each of the eleven compute functions
returns exactly its table formula: plain ratios are the quotient, percentage metrics
multiply by 100, and revenue growth is the relative change times 100. -/
theorem compute_formula_on_positive (a b : ℚ) (h : 0 < b) :
    calculatePSR a b = Except.ok (a / b) ∧
    calculateCurrentRatio a b = Except.ok (a / b * 100) ∧
    calculateEquityRatio a b = Except.ok (a / b * 100) ∧
    calculateCapExRatio a b = Except.ok (a / b) ∧
    calculateRevenueGrowth a b = Except.ok ((a - b) / b * 100) ∧
    calculateROE a b = Except.ok (a / b * 100) ∧
    calculateROA a b = Except.ok (a / b * 100) ∧
    calculateOperatingMargin a b = Except.ok (a / b * 100) ∧
    calculatePER a b = Except.ok (a / b) ∧
    calculatePBR a b = Except.ok (a / b) ∧
    calculateDividendYield a b = Except.ok (a / b * 100) := by
  have hn : ¬ b ≤ 0 := not_le.2 h
  refine ⟨?_, ?_, ?_, ?_, ?_, ?_, ?_, ?_, ?_, ?_, ?_⟩ <;>
    simp [calculatePSR, calculateCurrentRatio, calculateEquityRatio, calculateCapExRatio,
      calculateRevenueGrowth, calculateROE, calculateROA, calculateOperatingMargin,
      calculatePER, calculatePBR, calculateDividendYield, hn]

/-- Witness for C2 at `a = 3`, `b = 2`. -/
theorem compute_formula_on_positive_witness :
    0 < (2 : ℚ) ∧
    (calculatePSR 3 2 = Except.ok (3 / 2) ∧
     calculateCurrentRatio 3 2 = Except.ok (3 / 2 * 100) ∧
     calculateEquityRatio 3 2 = Except.ok (3 / 2 * 100) ∧
     calculateCapExRatio 3 2 = Except.ok (3 / 2) ∧
     calculateRevenueGrowth 3 2 = Except.ok ((3 - 2) / 2 * 100) ∧
     calculateROE 3 2 = Except.ok (3 / 2 * 100) ∧
     calculateROA 3 2 = Except.ok (3 / 2 * 100) ∧
     calculateOperatingMargin 3 2 = Except.ok (3 / 2 * 100) ∧
     calculatePER 3 2 = Except.ok (3 / 2) ∧
     calculatePBR 3 2 = Except.ok (3 / 2) ∧
     calculateDividendYield 3 2 = Except.ok (3 / 2 * 100)) :=
  ⟨by norm_num, compute_formula_on_positive 3 2 (by norm_num)⟩

/-- C3: every classify function partitions the rationals into exhaustive,
non-overlapping, contiguous half-open bands, ordered from the most favorable band to
the least favorable (the residual band): for every ratio value, including negative and
arbitrarily large ones, exactly one band holds and the classifier's level is that
band's level. -/
theorem judgment_bands_partition :
    (∀ x : ℚ, ∃! i : Fin 4, chainLT 1 2 5 i x ∧ (getPSRJudgment x).level = psrLevels i) ∧
    (∀ x : ℚ, ∃! i : Fin 4, chainGE 200 150 100 i x ∧ (getCurrentRatioJudgment x).level = safetyLevels i) ∧
    (∀ x : ℚ, ∃! i : Fin 4, chainGE 50 40 20 i x ∧ (getEquityRatioJudgment x).level = safetyLevels i) ∧
    (∀ x : ℚ, ∃! i : Fin 4, chainGE (3/2) 1 (7/10) i x ∧ (getCapExRatioJudgment x).level = growthLevels i) ∧
    (∀ x : ℚ, ∃! i : Fin 4, chainGE 50 20 0 i x ∧ (getRevenueGrowthJudgment x).level = growthLevels i) ∧
    (∀ x : ℚ, ∃! i : Fin 4, chainGE 15 10 5 i x ∧ (getROEJudgment x).level = profitabilityLevels i) ∧
    (∀ x : ℚ, ∃! i : Fin 4, chainGE 10 5 2 i x ∧ (getROAJudgment x).level = profitabilityLevels i) ∧
    (∀ x : ℚ, ∃! i : Fin 4, chainGE 20 10 5 i x ∧ (getOperatingMarginJudgment x).level = profitabilityLevels i) ∧
    (∀ x : ℚ, ∃! i : Fin 4, chainLT 10 20 30 i x ∧ (getPERJudgment x).level = valuationLevels i) ∧
    (∀ x : ℚ, ∃! i : Fin 4, chainLT 1 2 3 i x ∧ (getPBRJudgment x).level = valuationLevels i) ∧
    (∀ x : ℚ, ∃! i : Fin 4, chainGE 4 2 1 i x ∧ (getDividendYieldJudgment x).level = valuationLevels i) :=
  ⟨fun x => chainLT_existsUnique 1 2 5 (by norm_num) (by norm_num) psrLevels _
      getPSRJudgment_level x,
   fun x => chainGE_existsUnique 200 150 100 (by norm_num) (by norm_num) safetyLevels _
      getCurrentRatioJudgment_level x,
   fun x => chainGE_existsUnique 50 40 20 (by norm_num) (by norm_num) safetyLevels _
      getEquityRatioJudgment_level x,
   fun x => chainGE_existsUnique (3/2) 1 (7/10) (by norm_num) (by norm_num) growthLevels _
      getCapExRatioJudgment_level x,
   fun x => chainGE_existsUnique 50 20 0 (by norm_num) (by norm_num) growthLevels _
      getRevenueGrowthJudgment_level x,
   fun x => chainGE_existsUnique 15 10 5 (by norm_num) (by norm_num) profitabilityLevels _
      getROEJudgment_level x,
   fun x => chainGE_existsUnique 10 5 2 (by norm_num) (by norm_num) profitabilityLevels _
      getROAJudgment_level x,
   fun x => chainGE_existsUnique 20 10 5 (by norm_num) (by norm_num) profitabilityLevels _
      getOperatingMarginJudgment_level x,
   fun x => chainLT_existsUnique 10 20 30 (by norm_num) (by norm_num) valuationLevels _
      getPERJudgment_level x,
   fun x => chainLT_existsUnique 1 2 3 (by norm_num) (by norm_num) valuationLevels _
      getPBRJudgment_level x,
   fun x => chainGE_existsUnique 4 2 1 (by norm_num) (by norm_num) valuationLevels _
      getDividendYieldJudgment_level x⟩

/-- C4: boundary ratios land on the side the half-open interval rules dictate:
`getPSRJudgment 1` is `fair` (not `undervalued`), `getCurrentRatioJudgment 200` is
`excellent`, and `getPERJudgment 10` is `fair` (not `undervalued`). -/
theorem boundary_classification :
    (getPSRJudgment 1).level = PSRLevel.fair ∧
    (getCurrentRatioJudgment 200).level = SafetyLevel.excellent ∧
    (getPERJudgment 10).level = ValuationLevel.fair := by
  refine ⟨?_, ?_, ?_⟩ <;> norm_num [getPSRJudgment, getCurrentRatioJudgment, getPERJudgment]

/-- C5: end-to-end, `calculatePSR 500000 100000` returns exactly `5` and classifying
`5` yields level `very-high` (the `PSR ≥ 5` band); `calculateDividendYield 100 2500`
returns exactly `4` and classifying `4` yields level `undervalued`, the high-yield
`≥ 4` band. -/
theorem scenario_psr_and_dividend_yield :
    calculatePSR 500000 100000 = Except.ok 5 ∧
    (getPSRJudgment 5).level = PSRLevel.veryHigh ∧
    calculateDividendYield 100 2500 = Except.ok 4 ∧
    (getDividendYieldJudgment 4).level = ValuationLevel.undervalued := by
  refine ⟨?_, ?_, ?_, ?_⟩ <;>
    norm_num [calculatePSR, getPSRJudgment, calculateDividendYield, getDividendYieldJudgment]

/-- C6: a zero annual dividend is a valid input: for every positive stock price,
`calculateDividendYield 0 stockPrice` succeeds with result `0`, and classifying `0`
yields the last band, level `very-overvalued` (the no-dividend band, since `0 < 1`). -/
theorem zero_dividend_is_valid (stockPrice : ℚ) (h : 0 < stockPrice) :
    calculateDividendYield 0 stockPrice = Except.ok 0 ∧
    (getDividendYieldJudgment 0).level = ValuationLevel.veryOvervalued := by
  refine ⟨?_, ?_⟩
  · simp [calculateDividendYield, not_le.2 h]
  · norm_num [getDividendYieldJudgment]

/-- Witness for C6 at `stockPrice = 2500`. -/
theorem zero_dividend_is_valid_witness :
    0 < (2500 : ℚ) ∧
    (calculateDividendYield 0 2500 = Except.ok 0 ∧
     (getDividendYieldJudgment 0).level = ValuationLevel.veryOvervalued) :=
  ⟨by norm_num, zero_dividend_is_valid 2500 (by norm_num)⟩

/-- C7: every compute function and every classify function is deterministic: two
invocations on identical argument tuples (the compute functions' shared denominator
being strictly positive) return exactly equal results.  Side-effect freedom is
reflected by the embedding itself: each function is a plain function of its arguments
with no state threaded in or out. -/
theorem compute_classify_deterministic (a b a' b' : ℚ) (hab : (a, b) = (a', b'))
    (hb : 0 < b) :
    (calculatePSR a b = calculatePSR a' b' ∧
     calculateCurrentRatio a b = calculateCurrentRatio a' b' ∧
     calculateEquityRatio a b = calculateEquityRatio a' b' ∧
     calculateCapExRatio a b = calculateCapExRatio a' b' ∧
     calculateRevenueGrowth a b = calculateRevenueGrowth a' b' ∧
     calculateROE a b = calculateROE a' b' ∧
     calculateROA a b = calculateROA a' b' ∧
     calculateOperatingMargin a b = calculateOperatingMargin a' b' ∧
     calculatePER a b = calculatePER a' b' ∧
     calculatePBR a b = calculatePBR a' b' ∧
     calculateDividendYield a b = calculateDividendYield a' b') ∧
    (getPSRJudgment a = getPSRJudgment a' ∧
     getCurrentRatioJudgment a = getCurrentRatioJudgment a' ∧
     getEquityRatioJudgment a = getEquityRatioJudgment a' ∧
     getCapExRatioJudgment a = getCapExRatioJudgment a' ∧
     getRevenueGrowthJudgment a = getRevenueGrowthJudgment a' ∧
     getROEJudgment a = getROEJudgment a' ∧
     getROAJudgment a = getROAJudgment a' ∧
     getOperatingMarginJudgment a = getOperatingMarginJudgment a' ∧
     getPERJudgment a = getPERJudgment a' ∧
     getPBRJudgment a = getPBRJudgment a' ∧
     getDividendYieldJudgment a = getDividendYieldJudgment a') := by
  injection hab with h1 h2
  subst h1
  subst h2
  exact ⟨⟨rfl, rfl, rfl, rfl, rfl, rfl, rfl, rfl, rfl, rfl, rfl⟩,
         ⟨rfl, rfl, rfl, rfl, rfl, rfl, rfl, rfl, rfl, rfl, rfl⟩⟩

/-- Witness for C7 at the tuple `(1, 2)` repeated. -/
theorem compute_classify_deterministic_witness :
    ((1 : ℚ), (2 : ℚ)) = (1, 2) ∧ 0 < (2 : ℚ) ∧
    ((calculatePSR 1 2 = calculatePSR 1 2 ∧
      calculateCurrentRatio 1 2 = calculateCurrentRatio 1 2 ∧
      calculateEquityRatio 1 2 = calculateEquityRatio 1 2 ∧
      calculateCapExRatio 1 2 = calculateCapExRatio 1 2 ∧
      calculateRevenueGrowth 1 2 = calculateRevenueGrowth 1 2 ∧
      calculateROE 1 2 = calculateROE 1 2 ∧
      calculateROA 1 2 = calculateROA 1 2 ∧
      calculateOperatingMargin 1 2 = calculateOperatingMargin 1 2 ∧
      calculatePER 1 2 = calculatePER 1 2 ∧
      calculatePBR 1 2 = calculatePBR 1 2 ∧
      calculateDividendYield 1 2 = calculateDividendYield 1 2) ∧
     (getPSRJudgment 1 = getPSRJudgment 1 ∧
      getCurrentRatioJudgment 1 = getCurrentRatioJudgment 1 ∧
      getEquityRatioJudgment 1 = getEquityRatioJudgment 1 ∧
      getCapExRatioJudgment 1 = getCapExRatioJudgment 1 ∧
      getRevenueGrowthJudgment 1 = getRevenueGrowthJudgment 1 ∧
      getROEJudgment 1 = getROEJudgment 1 ∧
      getROAJudgment 1 = getROAJudgment 1 ∧
      getOperatingMarginJudgment 1 = getOperatingMarginJudgment 1 ∧
      getPERJudgment 1 = getPERJudgment 1 ∧
      getPBRJudgment 1 = getPBRJudgment 1 ∧
      getDividendYieldJudgment 1 = getDividendYieldJudgment 1)) :=
  ⟨rfl, by norm_num, compute_classify_deterministic 1 2 1 2 rfl (by norm_num)⟩

/-- C8: no compute function validates its first operand: for every first argument,
negative values included, and every strictly positive second argument, each of the
eleven functions returns its formula value without failing; in particular
`calculateROE` on a negative net income returns a strictly negative percentage rather
than an invalid-precondition failure. -/
theorem numerator_not_validated (x y : ℚ) (hy : 0 < y) :
    (calculatePSR x y = Except.ok (x / y) ∧
     calculateCurrentRatio x y = Except.ok (x / y * 100) ∧
     calculateEquityRatio x y = Except.ok (x / y * 100) ∧
     calculateCapExRatio x y = Except.ok (x / y) ∧
     calculateRevenueGrowth x y = Except.ok ((x - y) / y * 100) ∧
     calculateROE x y = Except.ok (x / y * 100) ∧
     calculateROA x y = Except.ok (x / y * 100) ∧
     calculateOperatingMargin x y = Except.ok (x / y * 100) ∧
     calculatePER x y = Except.ok (x / y) ∧
     calculatePBR x y = Except.ok (x / y) ∧
     calculateDividendYield x y = Except.ok (x / y * 100)) ∧
    (x < 0 → calculateROE x y = Except.ok (x / y * 100) ∧ x / y * 100 < 0) := by
  have hn : ¬ y ≤ 0 := not_le.2 hy
  refine ⟨?_, fun hx => ⟨by simp [calculateROE, hn], ?_⟩⟩
  · refine ⟨?_, ?_, ?_, ?_, ?_, ?_, ?_, ?_, ?_, ?_, ?_⟩ <;>
      simp [calculatePSR, calculateCurrentRatio, calculateEquityRatio, calculateCapExRatio,
        calculateRevenueGrowth, calculateROE, calculateROA, calculateOperatingMargin,
        calculatePER, calculatePBR, calculateDividendYield, hn]
  · have hq : x / y < 0 := div_neg_of_neg_of_pos hx hy
    nlinarith

/-- Witness for C8 at `x = -5`, `y = 2`. -/
theorem numerator_not_validated_witness :
    0 < (2 : ℚ) ∧
    ((calculatePSR (-5) 2 = Except.ok ((-5) / 2) ∧
      calculateCurrentRatio (-5) 2 = Except.ok ((-5) / 2 * 100) ∧
      calculateEquityRatio (-5) 2 = Except.ok ((-5) / 2 * 100) ∧
      calculateCapExRatio (-5) 2 = Except.ok ((-5) / 2) ∧
      calculateRevenueGrowth (-5) 2 = Except.ok (((-5) - 2) / 2 * 100) ∧
      calculateROE (-5) 2 = Except.ok ((-5) / 2 * 100) ∧
      calculateROA (-5) 2 = Except.ok ((-5) / 2 * 100) ∧
      calculateOperatingMargin (-5) 2 = Except.ok ((-5) / 2 * 100) ∧
      calculatePER (-5) 2 = Except.ok ((-5) / 2) ∧
      calculatePBR (-5) 2 = Except.ok ((-5) / 2) ∧
      calculateDividendYield (-5) 2 = Except.ok ((-5) / 2 * 100)) ∧
     ((-5 : ℚ) < 0 → calculateROE (-5) 2 = Except.ok ((-5) / 2 * 100) ∧ (-5 : ℚ) / 2 * 100 < 0)) :=
  ⟨by norm_num, numerator_not_validated (-5) 2 (by norm_num)⟩

/-- C9: each classifier's level is monotone in the ratio under the favorability rank
(`undervalued < fair < overvalued < very-overvalued`, and analogously per family):
for `x ≤ y` the `<`-style classifiers (PSR, PER, PBR) assign `x` a level preceding or
equal to the one for `y`, and the `≥`-style classifiers assign `y` a level preceding
or equal to the one for `x`. -/
theorem classifier_level_monotone (x y : ℚ) (hxy : x ≤ y) :
    ((getPSRJudgment x).level.rank ≤ (getPSRJudgment y).level.rank ∧
     (getPERJudgment x).level.rank ≤ (getPERJudgment y).level.rank ∧
     (getPBRJudgment x).level.rank ≤ (getPBRJudgment y).level.rank) ∧
    ((getCurrentRatioJudgment y).level.rank ≤ (getCurrentRatioJudgment x).level.rank ∧
     (getEquityRatioJudgment y).level.rank ≤ (getEquityRatioJudgment x).level.rank ∧
     (getCapExRatioJudgment y).level.rank ≤ (getCapExRatioJudgment x).level.rank ∧
     (getRevenueGrowthJudgment y).level.rank ≤ (getRevenueGrowthJudgment x).level.rank ∧
     (getROEJudgment y).level.rank ≤ (getROEJudgment x).level.rank ∧
     (getROAJudgment y).level.rank ≤ (getROAJudgment x).level.rank ∧
     (getOperatingMarginJudgment y).level.rank ≤ (getOperatingMarginJudgment x).level.rank ∧
     (getDividendYieldJudgment y).level.rank ≤ (getDividendYieldJudgment x).level.rank) :=
  ⟨⟨chainLT_rank_mono 1 2 5 psrLevels PSRLevel.rank _ getPSRJudgment_level
      (by decide) (by decide) (by decide) x y hxy,
    chainLT_rank_mono 10 20 30 valuationLevels ValuationLevel.rank _ getPERJudgment_level
      (by decide) (by decide) (by decide) x y hxy,
    chainLT_rank_mono 1 2 3 valuationLevels ValuationLevel.rank _ getPBRJudgment_level
      (by decide) (by decide) (by decide) x y hxy⟩,
   ⟨chainGE_rank_mono 200 150 100 safetyLevels SafetyLevel.rank _ getCurrentRatioJudgment_level
      (by decide) (by decide) (by decide) x y hxy,
    chainGE_rank_mono 50 40 20 safetyLevels SafetyLevel.rank _ getEquityRatioJudgment_level
      (by decide) (by decide) (by decide) x y hxy,
    chainGE_rank_mono (3/2) 1 (7/10) growthLevels GrowthLevel.rank _ getCapExRatioJudgment_level
      (by decide) (by decide) (by decide) x y hxy,
    chainGE_rank_mono 50 20 0 growthLevels GrowthLevel.rank _ getRevenueGrowthJudgment_level
      (by decide) (by decide) (by decide) x y hxy,
    chainGE_rank_mono 15 10 5 profitabilityLevels ProfitabilityLevel.rank _ getROEJudgment_level
      (by decide) (by decide) (by decide) x y hxy,
    chainGE_rank_mono 10 5 2 profitabilityLevels ProfitabilityLevel.rank _ getROAJudgment_level
      (by decide) (by decide) (by decide) x y hxy,
    chainGE_rank_mono 20 10 5 profitabilityLevels ProfitabilityLevel.rank _ getOperatingMarginJudgment_level
      (by decide) (by decide) (by decide) x y hxy,
    chainGE_rank_mono 4 2 1 valuationLevels ValuationLevel.rank _ getDividendYieldJudgment_level
      (by decide) (by decide) (by decide) x y hxy⟩⟩

/-- Witness for C9 at `x = 0`, `y = 1`. -/
theorem classifier_level_monotone_witness :
    (0 : ℚ) ≤ 1 ∧
    (((getPSRJudgment 0).level.rank ≤ (getPSRJudgment 1).level.rank ∧
      (getPERJudgment 0).level.rank ≤ (getPERJudgment 1).level.rank ∧
      (getPBRJudgment 0).level.rank ≤ (getPBRJudgment 1).level.rank) ∧
     ((getCurrentRatioJudgment 1).level.rank ≤ (getCurrentRatioJudgment 0).level.rank ∧
      (getEquityRatioJudgment 1).level.rank ≤ (getEquityRatioJudgment 0).level.rank ∧
      (getCapExRatioJudgment 1).level.rank ≤ (getCapExRatioJudgment 0).level.rank ∧
      (getRevenueGrowthJudgment 1).level.rank ≤ (getRevenueGrowthJudgment 0).level.rank ∧
      (getROEJudgment 1).level.rank ≤ (getROEJudgment 0).level.rank ∧
      (getROAJudgment 1).level.rank ≤ (getROAJudgment 0).level.rank ∧
      (getOperatingMarginJudgment 1).level.rank ≤ (getOperatingMarginJudgment 0).level.rank ∧
      (getDividendYieldJudgment 1).level.rank ≤ (getDividendYieldJudgment 0).level.rank)) :=
  ⟨by norm_num, classifier_level_monotone 0 1 (by norm_num)⟩

/-- C10: over exact arithmetic, every compute function is scale invariant: rescaling
both operands by any `k > 0` leaves the result unchanged whenever the denominator is
strictly positive. -/
theorem compute_scale_invariant (k a b : ℚ) (hk : 0 < k) (hb : 0 < b) :
    calculatePSR (k * a) (k * b) = calculatePSR a b ∧
    calculateCurrentRatio (k * a) (k * b) = calculateCurrentRatio a b ∧
    calculateEquityRatio (k * a) (k * b) = calculateEquityRatio a b ∧
    calculateCapExRatio (k * a) (k * b) = calculateCapExRatio a b ∧
    calculateRevenueGrowth (k * a) (k * b) = calculateRevenueGrowth a b ∧
    calculateROE (k * a) (k * b) = calculateROE a b ∧
    calculateROA (k * a) (k * b) = calculateROA a b ∧
    calculateOperatingMargin (k * a) (k * b) = calculateOperatingMargin a b ∧
    calculatePER (k * a) (k * b) = calculatePER a b ∧
    calculatePBR (k * a) (k * b) = calculatePBR a b ∧
    calculateDividendYield (k * a) (k * b) = calculateDividendYield a b := by
  have hn : ¬ b ≤ 0 := not_le.2 hb
  have hkn : ¬ k * b ≤ 0 := not_le.2 (mul_pos hk hb)
  have hdiv : ∀ u : ℚ, k * u / (k * b) = u / b := fun u => mul_div_mul_left u b (ne_of_gt hk)
  refine ⟨?_, ?_, ?_, ?_, ?_, ?_, ?_, ?_, ?_, ?_, ?_⟩ <;>
    simp only [calculatePSR, calculateCurrentRatio, calculateEquityRatio, calculateCapExRatio,
      calculateRevenueGrowth, calculateROE, calculateROA, calculateOperatingMargin,
      calculatePER, calculatePBR, calculateDividendYield, if_neg hn, if_neg hkn,
      ← mul_sub, hdiv]

/-- Witness for C10 at `k = 2`, `a = 3`, `b = 4`. -/
theorem compute_scale_invariant_witness :
    0 < (2 : ℚ) ∧ 0 < (4 : ℚ) ∧
    (calculatePSR (2 * 3) (2 * 4) = calculatePSR 3 4 ∧
     calculateCurrentRatio (2 * 3) (2 * 4) = calculateCurrentRatio 3 4 ∧
     calculateEquityRatio (2 * 3) (2 * 4) = calculateEquityRatio 3 4 ∧
     calculateCapExRatio (2 * 3) (2 * 4) = calculateCapExRatio 3 4 ∧
     calculateRevenueGrowth (2 * 3) (2 * 4) = calculateRevenueGrowth 3 4 ∧
     calculateROE (2 * 3) (2 * 4) = calculateROE 3 4 ∧
     calculateROA (2 * 3) (2 * 4) = calculateROA 3 4 ∧
     calculateOperatingMargin (2 * 3) (2 * 4) = calculateOperatingMargin 3 4 ∧
     calculatePER (2 * 3) (2 * 4) = calculatePER 3 4 ∧
     calculatePBR (2 * 3) (2 * 4) = calculatePBR 3 4 ∧
     calculateDividendYield (2 * 3) (2 * 4) = calculateDividendYield 3 4) :=
  ⟨by norm_num, by norm_num, compute_scale_invariant 2 3 4 (by norm_num) (by norm_num)⟩
